import Mathlib

/-!
Shallow embedding of the Inventarios_back repository (liquor-store inventory).

Conventions of the embedding:
* Python `datetime` timestamps are modelled as `Nat` instants; every call to
  `datetime.now()` in the source becomes an explicit `now : Nat` parameter.
* Python `float` prices are modelled as `Rat`; Python `int` as `Int`.
* A Python method that can `raise ValueError` is modelled as a function into
  `Except String _` carrying the source's error message.
* In-place mutation of the entity is modelled by returning the new entity
  value; `Producto.actualizar_stock` additionally returns the entity state
  reached when the exception is raised, because the source assigns the field
  before validating it.
-/

namespace Inventarios

/-- Entity `Producto` from src/app/domain/entities/producto.py (constructor
fields, lines 23-66). -/
structure Producto where
  id : Option Int
  sku : String
  nombre : String
  tipo_licor : String
  presentacion : String
  proveedor : String
  precio_compra : Rat
  precio_venta : Rat
  stock : Int
  estado : String
  fecha_creacion : Nat
  fecha_actualizacion : Nat
deriving DecidableEq, Repr

namespace Producto

/-- `Producto.validar_stock_no_negativo` (producto.py lines 68-83): raises
`ValueError` when `stock < 0`. -/
def validar_stock_no_negativo (p : Producto) : Except String Unit :=
  if p.stock < 0 then Except.error "El stock no puede ser negativo (RN2)"
  else Except.ok ()

/-- `Producto.validar_precios` (producto.py lines 85-102): raises `ValueError`
when a price is non-positive; reads the entity, assigns nothing (the embedding
is a pure function of the entity, mirroring a method body with no writes). -/
def validar_precios (p : Producto) : Except String Unit :=
  if p.precio_compra ≤ 0 then Except.error "El precio de compra debe ser mayor a 0"
  else if p.precio_venta ≤ 0 then Except.error "El precio de venta debe ser mayor a 0"
  else Except.ok ()

/-- `Producto.desactivar` (producto.py lines 104-117). -/
def desactivar (p : Producto) (now : Nat) : Producto :=
  { p with estado := "Inactivo", fecha_actualizacion := now }

/-- `Producto.activar` (producto.py lines 119-130). -/
def activar (p : Producto) (now : Nat) : Producto :=
  { p with estado := "Activo", fecha_actualizacion := now }

/-- `Producto.actualizar_stock` (producto.py lines 132-151): assigns
`self.stock = nueva_cantidad` FIRST, then validates, then refreshes the
timestamp. Returns the method outcome together with the entity state the
caller observes afterwards (on a raise, the assignment has already happened
and the timestamp refresh has not). -/
def actualizar_stock (p : Producto) (nueva_cantidad : Int) (now : Nat) :
    Except String Unit × Producto :=
  let p1 := { p with stock := nueva_cantidad }
  match p1.validar_stock_no_negativo with
  | Except.error e => (Except.error e, p1)
  | Except.ok _ => (Except.ok (), { p1 with fecha_actualizacion := now })

/-- `Producto.esta_activo` (producto.py lines 153-164). -/
def esta_activo (p : Producto) : Bool :=
  p.estado == "Activo"

end Producto

/-- Field validator `ProductoCreateDTO.sku_sin_espacios`
(producto_dto.py lines 79-96): rejects a SKU containing the character
`' '` (the Python test is the character-containment check `' ' in v`,
modelled on the string's character list), otherwise returns its uppercase
form `v.upper()` (uppercasing character by character). -/
def sku_sin_espacios (v : String) : Except String String :=
  if v.data.contains ' ' then Except.error "El SKU no puede contener espacios"
  else Except.ok ⟨v.data.map Char.toUpper⟩

/-- Optional arguments of `ActualizarProductoUseCase.ejecutar`
(actualizar_producto.py lines 42-53); `none` means the keyword argument was
not provided (Python `None`). -/
structure ActualizarArgs where
  nombre : Option String := none
  tipo_licor : Option String := none
  presentacion : Option String := none
  proveedor : Option String := none
  precio_compra : Option Rat := none
  precio_venta : Option Rat := none
  stock : Option Int := none
  estado : Option String := none
deriving DecidableEq, Repr

namespace ActualizarProductoUseCase

/-- Direct field assignments of `ejecutar` (actualizar_producto.py lines
94-105): each of the six `if x is not None: producto.x = x` guards. -/
def aplicarDirectos (producto : Producto) (a : ActualizarArgs) : Producto :=
  { producto with
    nombre := a.nombre.getD producto.nombre
    tipo_licor := a.tipo_licor.getD producto.tipo_licor
    presentacion := a.presentacion.getD producto.presentacion
    proveedor := a.proveedor.getD producto.proveedor
    precio_compra := a.precio_compra.getD producto.precio_compra
    precio_venta := a.precio_venta.getD producto.precio_venta }

/-- Stock step of `ejecutar` (actualizar_producto.py lines 106-107):
`if stock is not None: producto.actualizar_stock(stock)`; a raise inside
`actualizar_stock` propagates out of the use case. -/
def aplicarStock (producto : Producto) (stock : Option Int) (now : Nat) :
    Except String Producto :=
  match stock with
  | none => Except.ok producto
  | some s =>
    match producto.actualizar_stock s now with
    | (Except.ok _, p') => Except.ok p'
    | (Except.error e, _) => Except.error e

/-- Status step of `ejecutar` (actualizar_producto.py lines 108-112): only
the literals "Activo" and "Inactivo" dispatch to `activar`/`desactivar`;
any other provided value falls through both branches. -/
def aplicarEstado (producto : Producto) (estado : Option String) (now : Nat) :
    Producto :=
  match estado with
  | none => producto
  | some e =>
    if e = "Activo" then producto.activar now
    else if e = "Inactivo" then producto.desactivar now
    else producto

/-- Entity-level body of `ejecutar` after the load (actualizar_producto.py
lines 94-114): field applications, then the unconditional
`producto.validar_precios()`. -/
def aplicarCampos (producto : Producto) (a : ActualizarArgs) (now : Nat) :
    Except String Producto :=
  match aplicarStock (aplicarDirectos producto a) a.stock now with
  | Except.error e => Except.error e
  | Except.ok p2 =>
    match (aplicarEstado p2 a.estado now).validar_precios with
    | Except.error e => Except.error e
    | Except.ok _ => Except.ok (aplicarEstado p2 a.estado now)

/-- `ActualizarProductoUseCase.ejecutar` (actualizar_producto.py lines
42-118), polymorphic over the repository port (`ProductoRepoPort`,
producto_repo_port.py): `buscar_por_id`, then field application and
validation, then `repo.actualizar` whose result is returned. -/
def ejecutar {σ : Type} (buscar_por_id : σ → Int → Option Producto)
    (actualizar : σ → Producto → Except String (Producto × σ))
    (repo : σ) (id : Int) (a : ActualizarArgs) (now : Nat) :
    Except String (Producto × σ) :=
  match buscar_por_id repo id with
  | none => Except.error ("Producto con ID " ++ toString id ++ " no encontrado")
  | some producto =>
    match aplicarCampos producto a now with
    | Except.error e => Except.error e
    | Except.ok p' => actualizar repo p'

end ActualizarProductoUseCase

/-- Modelled from the spec: `find_by_id` of the Repository Port (spec §4.2).
No concrete persistence adapter exists under src/ (only the abstract port
producto_repo_port.py); the store is modelled as a list of records. -/
def listBuscarPorId (repo : List Producto) (id : Int) : Option Producto :=
  repo.find? (fun p => p.id == some id)

/-- Modelled from the spec: `update` of the Repository Port (spec §4.2):
persists the mutated record identified by its id, fails with the not-found
error when the id is absent, and returns the persisted record. -/
def listActualizar (repo : List Producto) (producto : Producto) :
    Except String (Producto × List Producto) :=
  if repo.any (fun q => q.id == producto.id) then
    Except.ok (producto, repo.map (fun q => if q.id == producto.id then producto else q))
  else Except.error "Producto no encontrado"

namespace Main

/-- SQLModel `Producto` table model from src/app/main.py lines 11-18. -/
structure Producto where
  id : Option Int := none
  sku : String
  nombre : String
  precio_compra : Rat
  precio_venta : Rat
  stock : Int
  estado : String := "Activo"
deriving DecidableEq, Repr

/-- Endpoint `crear_producto` (main.py lines 26-37): looks for an existing
row with the same `sku` (exact string equality), raises HTTP 409 when found,
otherwise inserts the row; the store-assigned primary key is modelled as one
more than the current row count. No price validation occurs anywhere in the
endpoint. -/
def crear_producto (db : List Producto) (producto : Producto) :
    Except String (Producto × List Producto) :=
  if db.any (fun q => q.sku == producto.sku) then Except.error "SKU ya existe"
  else
    let conId := { producto with id := some (Int.ofNat db.length + 1) }
    Except.ok (conId, db ++ [conId])

end Main

/-- Concrete sample entity used in witnesses and counterexamples (values from
the spec's end-to-end example, §8). -/
def pruebaProducto : Producto :=
  { id := some 1
    sku := "RON001"
    nombre := "Ron Viejo de Caldas"
    tipo_licor := "Ron"
    presentacion := "Botella 750ml"
    proveedor := "Licores Nacionales"
    precio_compra := 45000
    precio_venta := 65000
    stock := 100
    estado := "Activo"
    fecha_creacion := 0
    fecha_actualizacion := 0 }

namespace ActualizarProductoUseCase

/-- A successful stock step changes at most `stock` and `fecha_actualizacion`. -/
lemma aplicarStock_ok_frame (p : Producto) (st : Option Int) (now : Nat) (q : Producto)
    (h : aplicarStock p st now = Except.ok q) :
    q.id = p.id ∧ q.sku = p.sku ∧ q.nombre = p.nombre ∧ q.tipo_licor = p.tipo_licor ∧
    q.presentacion = p.presentacion ∧ q.proveedor = p.proveedor ∧
    q.precio_compra = p.precio_compra ∧ q.precio_venta = p.precio_venta ∧
    q.estado = p.estado ∧ q.fecha_creacion = p.fecha_creacion := by
  cases st with
  | none =>
    simp only [aplicarStock, Except.ok.injEq] at h
    subst h
    simp
  | some s =>
    by_cases hs : s < 0
    · simp [aplicarStock, Producto.actualizar_stock,
        Producto.validar_stock_no_negativo, hs] at h
    · simp [aplicarStock, Producto.actualizar_stock,
        Producto.validar_stock_no_negativo, hs] at h
      subst h
      simp

/-- A provided non-negative stock value makes the stock step succeed. -/
lemma aplicarStock_nonneg_ok (p : Producto) (st : Option Int) (now : Nat)
    (h : ∀ s, st = some s → 0 ≤ s) :
    ∃ q, aplicarStock p st now = Except.ok q := by
  cases st with
  | none => exact ⟨p, rfl⟩
  | some s =>
    refine ⟨{ p with stock := s, fecha_actualizacion := now }, ?_⟩
    simp [aplicarStock, Producto.actualizar_stock, Producto.validar_stock_no_negativo,
      not_lt.mpr (h s rfl)]

/-- The status step changes at most `estado` and `fecha_actualizacion`. -/
lemma aplicarEstado_frame (p : Producto) (est : Option String) (now : Nat) :
    (aplicarEstado p est now).id = p.id ∧ (aplicarEstado p est now).sku = p.sku ∧
    (aplicarEstado p est now).nombre = p.nombre ∧
    (aplicarEstado p est now).tipo_licor = p.tipo_licor ∧
    (aplicarEstado p est now).presentacion = p.presentacion ∧
    (aplicarEstado p est now).proveedor = p.proveedor ∧
    (aplicarEstado p est now).precio_compra = p.precio_compra ∧
    (aplicarEstado p est now).precio_venta = p.precio_venta ∧
    (aplicarEstado p est now).stock = p.stock ∧
    (aplicarEstado p est now).fecha_creacion = p.fecha_creacion := by
  cases est with
  | none => simp [aplicarEstado]
  | some e =>
    by_cases h1 : e = "Activo" <;> by_cases h2 : e = "Inactivo" <;>
      simp [aplicarEstado, h1, h2, Producto.activar, Producto.desactivar]

/-- Decomposition of a successful `aplicarCampos` run into its stages. -/
lemma aplicarCampos_ok_inv (p : Producto) (a : ActualizarArgs) (now : Nat) (p' : Producto)
    (h : aplicarCampos p a now = Except.ok p') :
    ∃ p2, aplicarStock (aplicarDirectos p a) a.stock now = Except.ok p2 ∧
      p' = aplicarEstado p2 a.estado now ∧
      (aplicarEstado p2 a.estado now).validar_precios = Except.ok () := by
  unfold aplicarCampos at h
  cases hst : aplicarStock (aplicarDirectos p a) a.stock now with
  | error e => rw [hst] at h; simp at h
  | ok p2 =>
    rw [hst] at h
    dsimp only at h
    cases hval : (aplicarEstado p2 a.estado now).validar_precios with
    | error e => rw [hval] at h; simp at h
    | ok u =>
      rw [hval] at h
      dsimp only at h
      simp only [Except.ok.injEq] at h
      exact ⟨p2, rfl, h.symm, hval⟩

/-- Decomposition of a successful `ejecutar` run: the load succeeded, the
entity-level steps succeeded, and the repository's `actualizar` produced the
returned value. -/
lemma ejecutar_ok_inv {σ : Type} (buscar : σ → Int → Option Producto)
    (act : σ → Producto → Except String (Producto × σ)) (repo : σ) (id : Int)
    (a : ActualizarArgs) (now : Nat) (r : Producto × σ)
    (h : ejecutar buscar act repo id a now = Except.ok r) :
    ∃ p q, buscar repo id = some p ∧ aplicarCampos p a now = Except.ok q ∧
      act repo q = Except.ok r := by
  unfold ejecutar at h
  cases hf : buscar repo id with
  | none => rw [hf] at h; simp at h
  | some p =>
    rw [hf] at h
    dsimp only at h
    cases hc : aplicarCampos p a now with
    | error e => rw [hc] at h; simp at h
    | ok q =>
      rw [hc] at h
      dsimp only at h
      exact ⟨p, q, rfl, hc, h⟩

end ActualizarProductoUseCase

/-- The spec-modelled `update` returns exactly the entity it was given. -/
lemma listActualizar_ok (repo : List Producto) (p : Producto) (r : Producto × List Producto)
    (h : listActualizar repo p = Except.ok r) : r.1 = p := by
  unfold listActualizar at h
  split at h
  · simp only [Except.ok.injEq] at h
    rw [← h]
  · simp at h

open ActualizarProductoUseCase

/-- C1, counterexample: on the sample product (stock 100), the call
`actualizar_stock (-1)` raises the RN2 error, yet the entity's stock field
afterwards is -1, not its value from before the call. The claim that the
stock value is unchanged from before the failed call is therefore false. -/
theorem C1_counterexample :
    (Producto.actualizar_stock pruebaProducto (-1) 5).1
        = Except.error "El stock no puede ser negativo (RN2)" ∧
    pruebaProducto.stock = 100 ∧
    (Producto.actualizar_stock pruebaProducto (-1) 5).2.stock = -1 ∧
    ¬ (Producto.actualizar_stock pruebaProducto (-1) 5).2.stock = pruebaProducto.stock := by
  refine ⟨rfl, rfl, rfl, ?_⟩
  decide

/-- C1, amended: for every negative new value, `actualizar_stock` fails with
the RN2 error and the entity's stock field after the failed call equals the
new (negative) value — the assignment precedes the check, so the failed
mutation stays visible in memory; `fecha_actualizacion` is not refreshed. -/
theorem C1_actualizar_stock_mutacion_visible (p : Producto) (nueva : Int) (now : Nat)
    (h : nueva < 0) :
    (Producto.actualizar_stock p nueva now).1
        = Except.error "El stock no puede ser negativo (RN2)" ∧
    (Producto.actualizar_stock p nueva now).2.stock = nueva ∧
    (Producto.actualizar_stock p nueva now).2.fecha_actualizacion
        = p.fecha_actualizacion := by
  simp [Producto.actualizar_stock, Producto.validar_stock_no_negativo, h]

/-- C1, witness: the amended statement instantiated at the sample product
and new value -1. -/
theorem C1_witness :
    (Producto.actualizar_stock pruebaProducto (-1) 5).1
        = Except.error "El stock no puede ser negativo (RN2)" ∧
    (Producto.actualizar_stock pruebaProducto (-1) 5).2.stock = -1 ∧
    (Producto.actualizar_stock pruebaProducto (-1) 5).2.fecha_actualizacion
        = pruebaProducto.fecha_actualizacion :=
  C1_actualizar_stock_mutacion_visible pruebaProducto (-1) 5 (by decide)

/-- C2: when the load by id succeeds but an entity-level step afterwards
fails (negative stock or price validation, i.e. `aplicarCampos` errors), the
use case returns that error and its result does not depend on the
repository's `actualizar` operation at all — `actualizar` is never invoked,
so the persisted record is left unchanged. -/
theorem C2_sin_escritura_parcial {σ : Type} (buscar : σ → Int → Option Producto)
    (act1 act2 : σ → Producto → Except String (Producto × σ)) (repo : σ) (id : Int)
    (a : ActualizarArgs) (now : Nat) (p : Producto) (e : String)
    (hfind : buscar repo id = some p)
    (hfail : aplicarCampos p a now = Except.error e) :
    ejecutar buscar act1 repo id a now = Except.error e ∧
    ejecutar buscar act1 repo id a now = ejecutar buscar act2 repo id a now := by
  unfold ejecutar
  rw [hfind]
  dsimp only
  rw [hfail]
  exact ⟨rfl, rfl⟩

/-- C2, witness: concrete store holding the sample product; the update
provides stock -1, which makes the stock step fail; the theorem is applied
with the list-store `actualizar` and with a second, always-failing
`actualizar`, giving the same error either way. -/
theorem C2_witness :
    ejecutar listBuscarPorId listActualizar [pruebaProducto] 1
        { stock := some (-1) } 7
      = Except.error "El stock no puede ser negativo (RN2)" ∧
    ejecutar listBuscarPorId listActualizar [pruebaProducto] 1
        { stock := some (-1) } 7
      = ejecutar listBuscarPorId (fun _ _ => Except.error "nunca invocado")
          [pruebaProducto] 1 { stock := some (-1) } 7 :=
  C2_sin_escritura_parcial listBuscarPorId listActualizar
    (fun _ _ => Except.error "nunca invocado") [pruebaProducto] 1
    { stock := some (-1) } 7 pruebaProducto
    "El stock no puede ser negativo (RN2)" rfl rfl

/-- Sample create payload with a non-positive purchase price. -/
def productoPrecioMalo : Main.Producto :=
  { sku := "X1"
    nombre := "Licor X"
    precio_compra := -1
    precio_venta := 10
    stock := 0 }

/-- C3, counterexample: `crear_producto` accepts and persists a product with
purchase price -1 (no price validation happens and no error is raised),
refuting the claim that such an input fails with the price error and is not
persisted. -/
theorem C3_counterexample :
    productoPrecioMalo.precio_compra ≤ 0 ∧
    Main.crear_producto [] productoPrecioMalo
      = Except.ok ({ productoPrecioMalo with id := some 1 },
          [{ productoPrecioMalo with id := some 1 }]) := by
  refine ⟨?_, rfl⟩
  decide

/-- C3, amended: the endpoint `crear_producto` performs no price validation
at all: every input whose SKU does not match an existing row is persisted
exactly as given (prices included, whatever their sign), with a
store-assigned id. `validar_precios` is never called by the endpoint. -/
theorem C3_crear_producto_sin_validar (db : List Main.Producto) (p : Main.Producto)
    (h : db.any (fun q => q.sku == p.sku) = false) :
    Main.crear_producto db p
      = Except.ok ({ p with id := some (Int.ofNat db.length + 1) },
          db ++ [{ p with id := some (Int.ofNat db.length + 1) }]) ∧
    ({ p with id := some (Int.ofNat db.length + 1) } : Main.Producto).precio_compra
        = p.precio_compra ∧
    ({ p with id := some (Int.ofNat db.length + 1) } : Main.Producto).precio_venta
        = p.precio_venta := by
  refine ⟨?_, rfl, rfl⟩
  simp [Main.crear_producto, h]

/-- C3, witness: the amended statement instantiated at the empty store and
the bad-price payload. -/
theorem C3_witness :
    Main.crear_producto [] productoPrecioMalo
      = Except.ok ({ productoPrecioMalo with id := some (Int.ofNat (List.length ([] : List Main.Producto)) + 1) },
          [] ++ [{ productoPrecioMalo with id := some (Int.ofNat (List.length ([] : List Main.Producto)) + 1) }]) ∧
    ({ productoPrecioMalo with id := some (Int.ofNat (List.length ([] : List Main.Producto)) + 1) } : Main.Producto).precio_compra
        = productoPrecioMalo.precio_compra ∧
    ({ productoPrecioMalo with id := some (Int.ofNat (List.length ([] : List Main.Producto)) + 1) } : Main.Producto).precio_venta
        = productoPrecioMalo.precio_venta :=
  C3_crear_producto_sin_validar [] productoPrecioMalo rfl

/-- C4, counterexample: the SKU string containing a tab character contains
whitespace, yet the validator accepts it unchanged — only the space
character `' '` is rejected, so the claim quantified over all whitespace is
false. -/
theorem C4_counterexample :
    "A\tB".data.any Char.isWhitespace = true ∧
    sku_sin_espacios "A\tB" = Except.ok "A\tB" := by
  refine ⟨?_, rfl⟩
  decide

/-- C4, amended: the validator rejects exactly the SKUs containing the space
character `' '` (spaces are rejected, never stripped); every space-free SKU
is mapped to its uppercase form, so two SKUs with the same uppercase form
(such as "ron001" and "RON001") normalize to the same key, and creating a
second product with the same stored SKU fails as a duplicate. -/
theorem C4_sku_espacio_y_normalizacion :
    (∀ v : String, v.data.contains ' ' = true →
        sku_sin_espacios v = Except.error "El SKU no puede contener espacios") ∧
    (∀ v : String, v.data.contains ' ' = false →
        sku_sin_espacios v = Except.ok ⟨v.data.map Char.toUpper⟩) ∧
    (sku_sin_espacios "ron001" = Except.ok "RON001" ∧
     sku_sin_espacios "RON001" = Except.ok "RON001") ∧
    (∀ (db db1 : List Main.Producto) (p q p1 : Main.Producto),
        Main.crear_producto db p = Except.ok (p1, db1) → q.sku = p.sku →
        Main.crear_producto db1 q = Except.error "SKU ya existe") := by
  refine ⟨?_, ?_, ⟨rfl, rfl⟩, ?_⟩
  · intro v hv
    simp at hv
    simp [sku_sin_espacios, hv]
  · intro v hv
    simp at hv
    simp [sku_sin_espacios, hv]
  · intro db db1 p q p1 hok hsku
    unfold Main.crear_producto at hok
    split at hok
    · simp at hok
    · simp only [Except.ok.injEq, Prod.mk.injEq] at hok
      obtain ⟨hp1, hdb1⟩ := hok
      subst hdb1
      have hsku1 : p1.sku = p.sku := by rw [← hp1]
      simp [Main.crear_producto, List.any_append, hsku1, hsku]

/-- C4, witness: the amended statement instantiated at a leading-space SKU
(rejected), at a space-free SKU (uppercased), and at a concrete pair of
creates with the same SKU (second one rejected as duplicate). -/
theorem C4_witness :
    sku_sin_espacios " ron001" = Except.error "El SKU no puede contener espacios" ∧
    sku_sin_espacios "ron001" = Except.ok ⟨"ron001".data.map Char.toUpper⟩ ∧
    Main.crear_producto [{ productoPrecioMalo with id := some 1 }] productoPrecioMalo
      = Except.error "SKU ya existe" :=
  ⟨C4_sku_espacio_y_normalizacion.1 " ron001" (by decide),
   C4_sku_espacio_y_normalizacion.2.1 "ron001" (by decide),
   C4_sku_espacio_y_normalizacion.2.2.2 [] [{ productoPrecioMalo with id := some 1 }]
     productoPrecioMalo productoPrecioMalo { productoPrecioMalo with id := some 1 }
     rfl rfl⟩

/-- Sample stored entity whose purchase price is non-positive. -/
def productoCompraMala : Producto :=
  { pruebaProducto with precio_compra := -5 }

/-- C5, counterexample: the stored product has purchase price -5 (non-
positive), yet the update call that provides purchase price 100 succeeds —
the unconditional re-validation checks the post-application state, so the
claim that such an update fails with the price error regardless of which
fields the call provides is false. -/
theorem C5_counterexample :
    productoCompraMala.precio_compra ≤ 0 ∧
    ejecutar listBuscarPorId listActualizar [productoCompraMala] 1
        { precio_compra := some 100 } 7
      = Except.ok ({ productoCompraMala with precio_compra := 100 },
          [{ productoCompraMala with precio_compra := 100 }]) := by
  refine ⟨?_, rfl⟩
  decide

/-- C5, amended: `ejecutar` calls `validar_precios` unconditionally after all
field applications, so whenever neither price field is provided, any provided
stock is non-negative, and a stored price is non-positive, the invocation
fails with one of the two price errors — for every repository implementation. -/
theorem C5_validacion_precios_incondicional {σ : Type}
    (buscar : σ → Int → Option Producto)
    (act : σ → Producto → Except String (Producto × σ)) (repo : σ) (id : Int)
    (a : ActualizarArgs) (now : Nat) (p : Producto)
    (hfind : buscar repo id = some p)
    (hc : a.precio_compra = none) (hv : a.precio_venta = none)
    (hs : ∀ s, a.stock = some s → 0 ≤ s)
    (hbad : p.precio_compra ≤ 0 ∨ p.precio_venta ≤ 0) :
    ∃ e, ejecutar buscar act repo id a now = Except.error e ∧
      (e = "El precio de compra debe ser mayor a 0" ∨
       e = "El precio de venta debe ser mayor a 0") := by
  obtain ⟨p2, hp2⟩ := aplicarStock_nonneg_ok (aplicarDirectos p a) a.stock now hs
  obtain ⟨-, -, -, -, -, -, hpc2, hpv2, -, -⟩ := aplicarStock_ok_frame _ _ _ _ hp2
  obtain ⟨-, -, -, -, -, -, hpc3, hpv3, -, -⟩ := aplicarEstado_frame p2 a.estado now
  have hdc : (aplicarDirectos p a).precio_compra = p.precio_compra := by
    simp [aplicarDirectos, hc]
  have hdv : (aplicarDirectos p a).precio_venta = p.precio_venta := by
    simp [aplicarDirectos, hv]
  have h3c : (aplicarEstado p2 a.estado now).precio_compra = p.precio_compra := by
    rw [hpc3, hpc2, hdc]
  have h3v : (aplicarEstado p2 a.estado now).precio_venta = p.precio_venta := by
    rw [hpv3, hpv2, hdv]
  unfold ejecutar
  rw [hfind]
  dsimp only
  unfold aplicarCampos
  rw [hp2]
  dsimp only
  by_cases hc0 : (aplicarEstado p2 a.estado now).precio_compra ≤ 0
  · refine ⟨"El precio de compra debe ser mayor a 0", ?_, Or.inl rfl⟩
    simp [Producto.validar_precios, hc0]
  · have hv0 : (aplicarEstado p2 a.estado now).precio_venta ≤ 0 := by
      rcases hbad with hb | hb
      · exact absurd (h3c ▸ hb) hc0
      · rw [h3v]; exact hb
    refine ⟨"El precio de venta debe ser mayor a 0", ?_, Or.inr rfl⟩
    simp [Producto.validar_precios, hc0, hv0]

/-- C5, witness: updating only the name of a stored product whose purchase
price is -5 fails with a price error. -/
theorem C5_witness :
    ∃ e, ejecutar listBuscarPorId listActualizar [productoCompraMala] 1
        { nombre := some "Nuevo" } 7 = Except.error e ∧
      (e = "El precio de compra debe ser mayor a 0" ∨
       e = "El precio de venta debe ser mayor a 0") :=
  C5_validacion_precios_incondicional listBuscarPorId listActualizar
    [productoCompraMala] 1 { nombre := some "Nuevo" } 7 productoCompraMala
    rfl rfl rfl (fun s h => by cases h) (Or.inl (by decide))

/-- C6: through the list-store repository, every field that is absent from
the update call keeps its prior value in the returned product. -/
theorem C6_actualizacion_parcial (repo : List Producto) (id : Int)
    (a : ActualizarArgs) (now : Nat) (p p' : Producto) (repo' : List Producto)
    (hfind : listBuscarPorId repo id = some p)
    (h : ejecutar listBuscarPorId listActualizar repo id a now
        = Except.ok (p', repo')) :
    (a.nombre = none → p'.nombre = p.nombre) ∧
    (a.tipo_licor = none → p'.tipo_licor = p.tipo_licor) ∧
    (a.presentacion = none → p'.presentacion = p.presentacion) ∧
    (a.proveedor = none → p'.proveedor = p.proveedor) ∧
    (a.precio_compra = none → p'.precio_compra = p.precio_compra) ∧
    (a.precio_venta = none → p'.precio_venta = p.precio_venta) ∧
    (a.stock = none → p'.stock = p.stock) ∧
    (a.estado = none → p'.estado = p.estado) := by
  obtain ⟨p0, q, hf, hcam, hact⟩ := ejecutar_ok_inv _ _ _ _ _ _ _ h
  rw [hfind] at hf
  injection hf with hf
  subst hf
  have hq : p' = q := listActualizar_ok _ _ _ hact
  subst hq
  obtain ⟨p2, hst, hp', hval⟩ := aplicarCampos_ok_inv _ _ _ _ hcam
  subst hp'
  obtain ⟨s1, s2, s3, s4, s5, s6, s7, s8, s9, s10⟩ := aplicarStock_ok_frame _ _ _ _ hst
  obtain ⟨e1, e2, e3, e4, e5, e6, e7, e8, e9, e10⟩ := aplicarEstado_frame p2 a.estado now
  refine ⟨?_, ?_, ?_, ?_, ?_, ?_, ?_, ?_⟩
  · intro hn
    rw [e3, s3]
    simp [aplicarDirectos, hn]
  · intro hn
    rw [e4, s4]
    simp [aplicarDirectos, hn]
  · intro hn
    rw [e5, s5]
    simp [aplicarDirectos, hn]
  · intro hn
    rw [e6, s6]
    simp [aplicarDirectos, hn]
  · intro hn
    rw [e7, s7]
    simp [aplicarDirectos, hn]
  · intro hn
    rw [e8, s8]
    simp [aplicarDirectos, hn]
  · intro hn
    rw [e9]
    rw [hn] at hst
    simp only [aplicarStock, Except.ok.injEq] at hst
    rw [← hst]
    rfl
  · intro hn
    rw [hn]
    dsimp only [aplicarEstado]
    rw [s9]
    rfl

/-- Result of the C6 witness update: only `stock` (and the refreshed
timestamp) differ from the stored sample product. -/
def prueba150 : Producto :=
  { pruebaProducto with stock := 150, fecha_actualizacion := 7 }

/-- C6, witness: the stored product has stock 100 and sale price 65000;
updating with only stock 150 returns a product with stock 150 and the sale
price unchanged at 65000. -/
theorem C6_witness :
    ejecutar listBuscarPorId listActualizar [pruebaProducto] 1
        { stock := some 150 } 7 = Except.ok (prueba150, [prueba150]) ∧
    prueba150.stock = 150 ∧
    prueba150.precio_venta = 65000 ∧
    prueba150.precio_venta = pruebaProducto.precio_venta :=
  ⟨rfl, rfl, rfl,
   (C6_actualizacion_parcial [pruebaProducto] 1 { stock := some 150 } 7
      pruebaProducto prueba150 [prueba150] rfl rfl).2.2.2.2.2.1 rfl⟩

/-- C7: `validar_precios` fails exactly when a price is non-positive. Its
embedding is a pure function of the entity — the source method body only
reads fields and raises, assigning nothing, so mutation-freedom is inherent
in the translation type `Producto → Except String Unit`. -/
theorem C7_validar_precios_caracterizacion (p : Producto) :
    (∃ e, Producto.validar_precios p = Except.error e) ↔
      (p.precio_compra ≤ 0 ∨ p.precio_venta ≤ 0) := by
  unfold Producto.validar_precios
  by_cases h1 : p.precio_compra ≤ 0
  · simp [h1]
  · by_cases h2 : p.precio_venta ≤ 0
    · simp [h1, h2]
    · simp [h1, h2]

/-- C8: a provided status value other than "Activo"/"Inactivo" leaves the
entity unchanged (so neither `activar` nor `desactivar` ran: both would have
rewritten `estado` and the timestamp), and the whole entity-level update
pipeline succeeds, returning the entity as it was, provided its prices are
valid. -/
theorem C8_estado_desconocido_no_op (p : Producto) (s : String) (now : Nat)
    (h1 : s ≠ "Activo") (h2 : s ≠ "Inactivo") :
    aplicarEstado p (some s) now = p ∧
    (0 < p.precio_compra → 0 < p.precio_venta →
      aplicarCampos p { estado := some s } now = Except.ok p) := by
  have he : aplicarEstado p (some s) now = p := by
    simp [aplicarEstado, h1, h2]
  refine ⟨he, fun hcp hvp => ?_⟩
  have hc' : ¬ p.precio_compra ≤ 0 := not_le.mpr hcp
  have hv' : ¬ p.precio_venta ≤ 0 := not_le.mpr hvp
  have hd : aplicarDirectos p { estado := some s } = p := rfl
  simp [aplicarCampos, hd, aplicarStock, he, Producto.validar_precios, hc', hv']

/-- C8, witness: providing the unrecognized status "Suspendido" to the
sample product is a silent no-op and the pipeline returns the product
unchanged. -/
theorem C8_witness :
    aplicarEstado pruebaProducto (some "Suspendido") 7 = pruebaProducto ∧
    aplicarCampos pruebaProducto { estado := some "Suspendido" } 7
      = Except.ok pruebaProducto :=
  have h := C8_estado_desconocido_no_op pruebaProducto "Suspendido" 7
    (by decide) (by decide)
  ⟨h.1, h.2 (by decide) (by decide)⟩

/-- C9: `desactivar` is idempotent on the status (Inactivo after the first
and after the second call), the timestamp after the second call is at least
the one after the first (times being monotone across the calls), and
`activar` on an already-active product keeps the status Activo while still
refreshing the timestamp. -/
theorem C9_desactivar_idempotente (p : Producto) (now1 now2 : Nat)
    (h : now1 ≤ now2) (hA : p.estado = "Activo") :
    (Producto.desactivar p now1).estado = "Inactivo" ∧
    (Producto.desactivar (Producto.desactivar p now1) now2).estado = "Inactivo" ∧
    (Producto.desactivar p now1).fecha_actualizacion
        ≤ (Producto.desactivar (Producto.desactivar p now1) now2).fecha_actualizacion ∧
    (Producto.activar p now2).estado = "Activo" ∧
    (Producto.activar p now2).estado = p.estado ∧
    (Producto.activar p now2).fecha_actualizacion = now2 := by
  simp [Producto.desactivar, Producto.activar, h, hA]

/-- C9, witness: the statement instantiated at the sample (active) product
with instants 1 and 2. -/
theorem C9_witness :
    (Producto.desactivar pruebaProducto 1).estado = "Inactivo" ∧
    (Producto.desactivar (Producto.desactivar pruebaProducto 1) 2).estado = "Inactivo" ∧
    (Producto.desactivar pruebaProducto 1).fecha_actualizacion
        ≤ (Producto.desactivar (Producto.desactivar pruebaProducto 1) 2).fecha_actualizacion ∧
    (Producto.activar pruebaProducto 2).estado = "Activo" ∧
    (Producto.activar pruebaProducto 2).estado = pruebaProducto.estado ∧
    (Producto.activar pruebaProducto 2).fecha_actualizacion = 2 :=
  C9_desactivar_idempotente pruebaProducto 1 2 (by decide) rfl

/-- C10: whatever subset of fields an update call provides, the returned
product keeps the loaded entity's `id`, `sku` and `fecha_creacion`: no code
path of the use case or of the entity methods it calls assigns them. -/
theorem C10_campos_inmutables (repo : List Producto) (id : Int)
    (a : ActualizarArgs) (now : Nat) (p p' : Producto) (repo' : List Producto)
    (hfind : listBuscarPorId repo id = some p)
    (h : ejecutar listBuscarPorId listActualizar repo id a now
        = Except.ok (p', repo')) :
    p'.id = p.id ∧ p'.sku = p.sku ∧ p'.fecha_creacion = p.fecha_creacion := by
  obtain ⟨p0, q, hf, hcam, hact⟩ := ejecutar_ok_inv _ _ _ _ _ _ _ h
  rw [hfind] at hf
  injection hf with hf
  subst hf
  have hq : p' = q := listActualizar_ok _ _ _ hact
  subst hq
  obtain ⟨p2, hst, hp', hval⟩ := aplicarCampos_ok_inv _ _ _ _ hcam
  subst hp'
  obtain ⟨s1, s2, -, -, -, -, -, -, -, s10⟩ := aplicarStock_ok_frame _ _ _ _ hst
  obtain ⟨e1, e2, -, -, -, -, -, -, -, e10⟩ := aplicarEstado_frame p2 a.estado now
  refine ⟨?_, ?_, ?_⟩
  · rw [e1, s1]
    rfl
  · rw [e2, s2]
    rfl
  · rw [e10, s10]
    rfl

/-- Result of the C10 witness update: name, stock, status and timestamp
change; id, SKU and creation date do not. -/
def pruebaC10 : Producto :=
  { pruebaProducto with
    nombre := "Otro", stock := 5, estado := "Inactivo", fecha_actualizacion := 9 }

/-- C10, witness: an update providing name, stock and status returns a
product with the stored id, SKU and creation date. -/
theorem C10_witness :
    ejecutar listBuscarPorId listActualizar [pruebaProducto] 1
        { nombre := some "Otro", stock := some 5, estado := some "Inactivo" } 9
      = Except.ok (pruebaC10, [pruebaC10]) ∧
    (pruebaC10.id = pruebaProducto.id ∧ pruebaC10.sku = pruebaProducto.sku ∧
     pruebaC10.fecha_creacion = pruebaProducto.fecha_creacion) :=
  ⟨rfl, C10_campos_inmutables [pruebaProducto] 1
    { nombre := some "Otro", stock := some 5, estado := some "Inactivo" } 9
    pruebaProducto pruebaC10 [pruebaC10] rfl rfl⟩

end Inventarios
